import Mathlib

set_option maxRecDepth 8000

/-
  Verification of the mattermost-plugin-giphy repository.

  The development shallowly embeds:
  - the slash-command layer of `server/commands.go` (command-line parsing via
    the Go regexp of `parseCommandLine`, caption generation, the public `/gif`
    command and the ephemeral `/gifs` shuffle command);
  - the two GIF providers (Giphy, Gfycat): request building, status handling,
    response parsing and cursor advance;
  - the HTTP callback handler driving the cancel / shuffle / send transitions.

  The provider implementations and the HTTP handler source are not part of the
  excerpt (only their tests are), so those definitions are modelled from the
  specification, as indicated by their doc comments.  Machine strings are Lean
  `String`s, response bodies are already-decoded structures with an explicit
  empty / invalid state, and host side effects are returned as explicit call
  lists.
-/

namespace MatterGif

/-! ### Character classes and string helpers -/

/-- The Go regexp whitespace class: tab, newline, form feed, carriage return, space. -/
def isGoRegexSpace (c : Char) : Bool :=
  c == ' ' || c == '\t' || c == '\n' || c == '\x0c' || c == '\r'

/-- Recognizer for the double-quote character. -/
def isQuoteCh (c : Char) : Bool := c == '\x22'

/-- The character class of a bare token character: anything but whitespace and quotes. -/
def isWordCh (c : Char) : Bool := !(isGoRegexSpace c) && !(isQuoteCh c)

/-- The whitespace set trimmed by Go `strings.TrimSpace` (ASCII part). -/
def isTrimSpace (c : Char) : Bool :=
  c == ' ' || c == '\t' || c == '\n' || c == '\x0b' || c == '\x0c' || c == '\r'

/-- Drop matching characters from the end of a list. -/
def dropWhileEnd (p : Char → Bool) (l : List Char) : List Char :=
  (l.reverse.dropWhile p).reverse

/-- Go `strings.TrimSpace` on a character list. -/
def trimSpaceChars (l : List Char) : List Char :=
  dropWhileEnd isTrimSpace (l.dropWhile isTrimSpace)

/-- Go `strings.Trim(s, "\"")` on a character list. -/
def trimQuoteChars (l : List Char) : List Char :=
  dropWhileEnd isQuoteCh (l.dropWhile isQuoteCh)

/-- Go `strings.Replace(s, pat, "", 1)`: remove the first occurrence of `pat`. -/
def replaceOnce : List Char → List Char → List Char
  | [], _ => []
  | c :: cs, pat =>
    if pat.isPrefixOf (c :: cs) then (c :: cs).drop pat.length
    else c :: replaceOnce cs pat

/-- `sub` occurs as a contiguous substring of `s`. -/
def containsStr (s sub : String) : Prop := sub.data <:+: s.data

instance (s sub : String) : Decidable (containsStr s sub) :=
  List.decidableInfix sub.data s.data

/-! ### A regular-expression engine with capture groups

The command parser of `server/commands.go` is a single Go regexp.  We embed it
as a regex AST together with a fuelled backtracking matcher whose ordered
choice and greedy repetition reproduce Go's leftmost-first match and submatch
semantics for an anchored pattern. -/

/-- Regex AST: empty word, single-character class, concatenation, ordered
alternation, greedy Kleene star, and a numbered capture group. -/
inductive Regex : Type where
  | eps : Regex
  | cls : (Char → Bool) → Regex
  | cat : Regex → Regex → Regex
  | alt : Regex → Regex → Regex
  | star : Regex → Regex
  | group : Nat → Regex → Regex

/-- Capture environment: group number to the characters it last matched. -/
def Captures : Type := Nat → Option (List Char)

def noCaps : Captures := fun _ => none

def setCap (caps : Captures) (n : Nat) (v : List Char) : Captures :=
  fun m => if m = n then some v else caps m

/-- Fuelled backtracking matcher in continuation-passing style.  Alternation
tries its left branch first, star is greedy (tries to consume more first) and
only iterates on strict progress, and a group records the consumed characters
when control leaves it. -/
def runR : Nat → Regex → List Char → Captures →
    (List Char → Captures → Option Captures) → Option Captures
  | 0, _, _, _, _ => none
  | Nat.succ _, Regex.eps, s, caps, k => k s caps
  | Nat.succ _, Regex.cls p, s, caps, k =>
    match s with
    | [] => none
    | c :: rest => if p c then k rest caps else none
  | Nat.succ fuel, Regex.cat a b, s, caps, k =>
    runR fuel a s caps (fun t caps2 => runR fuel b t caps2 k)
  | Nat.succ fuel, Regex.alt a b, s, caps, k =>
    match runR fuel a s caps k with
    | some r => some r
    | none => runR fuel b s caps k
  | Nat.succ fuel, Regex.star a, s, caps, k =>
    match runR fuel a s caps
        (fun t caps2 =>
          if t.length < s.length then runR fuel (Regex.star a) t caps2 k else none) with
    | some r => some r
    | none => k s caps
  | Nat.succ fuel, Regex.group n a, s, caps, k =>
    runR fuel a s caps
      (fun t caps2 => k t (setCap caps2 n (s.take (s.length - t.length))))

/-- Anchored full match (the Go pattern carries both anchors). -/
def matchFull (fuel : Nat) (r : Regex) (s : List Char) : Option Captures :=
  runR fuel r s noCaps (fun rest caps => if rest = [] then some caps else none)

/-- One-or-more repetition, expressed through `cat` and `star`. -/
def rplus (r : Regex) : Regex := Regex.cat r (Regex.star r)

def wsStar : Regex := Regex.star (Regex.cls isGoRegexSpace)

def wsPlus : Regex := rplus (Regex.cls isGoRegexSpace)

def wordPlus : Regex := rplus (Regex.cls isWordCh)

/-- One bare token with trailing whitespace: the Go fragment
matching a run of non-space non-quote characters then optional spaces. -/
def bareToken : Regex := Regex.cat wordPlus wsStar

/-- One quoted phrase: a quote, one or more tokens, a quote. -/
def quotedPhrase : Regex :=
  Regex.cat (Regex.cls isQuoteCh) (Regex.cat (rplus bareToken) (Regex.cls isQuoteCh))

/-- The named `keywords` group: one-or-more quoted phrases, or a run of bare tokens. -/
def keywordsRegex : Regex :=
  Regex.group 1 (Regex.alt (rplus quotedPhrase) (rplus bareToken))

/-- Inner repetition of the caption group. -/
def captionInner : Regex := rplus (Regex.cat wsStar (Regex.cat wordPlus wsStar))

/-- The optional named `caption` group: whitespace then one quoted phrase. -/
def captionRegex : Regex :=
  Regex.alt
    (Regex.group 5
      (Regex.cat wsPlus
        (Regex.cat (Regex.cls isQuoteCh) (Regex.cat captionInner (Regex.cls isQuoteCh)))))
    Regex.eps

/-- The full Go regexp of `parseCommandLine` (anchors are implicit in `matchFull`). -/
def commandRegex : Regex :=
  Regex.cat wsStar (Regex.cat keywordsRegex (Regex.cat captionRegex wsStar))

/-- Fuel amply covering the recursion depth of the matcher on command lines. -/
def regexFuel : Nat := 2000

/-! #### Matching semantics and soundness of the matcher -/

/-- Declarative matching relation: `RMatch r s t` states that `r` matches a
prefix of `s` leaving the suffix `t`. -/
inductive RMatch : Regex → List Char → List Char → Prop where
  | eps {s} : RMatch Regex.eps s s
  | cls {p c s} : p c = true → RMatch (Regex.cls p) (c :: s) s
  | cat {a b s t u} : RMatch a s t → RMatch b t u → RMatch (Regex.cat a b) s u
  | altL {a b s t} : RMatch a s t → RMatch (Regex.alt a b) s t
  | altR {a b s t} : RMatch b s t → RMatch (Regex.alt a b) s t
  | starNil {a s} : RMatch (Regex.star a) s s
  | starCons {a s t u} : RMatch a s t → RMatch (Regex.star a) t u →
      RMatch (Regex.star a) s u
  | group {n a s t} : RMatch a s t → RMatch (Regex.group n a) s t

/-- Whenever the backtracking matcher succeeds, its regex matches a prefix of
the input and the continuation accepts the corresponding suffix. -/
theorem runR_sound (fuel : Nat) :
    ∀ (r : Regex) (s : List Char) (caps : Captures)
      (k : List Char → Captures → Option Captures) (res : Captures),
      runR fuel r s caps k = some res →
      ∃ t caps2, RMatch r s t ∧ k t caps2 = some res := by
  induction fuel with
  | zero =>
    intro r s caps k res h
    simp [runR] at h
  | succ fuel ih =>
    intro r s caps k res h
    cases r with
    | eps => exact ⟨s, caps, RMatch.eps, h⟩
    | cls p =>
      cases s with
      | nil => simp [runR] at h
      | cons c rest =>
        simp only [runR] at h
        by_cases hp : p c = true
        · rw [if_pos hp] at h
          exact ⟨rest, caps, RMatch.cls hp, h⟩
        · rw [if_neg hp] at h
          exact absurd h (by simp)
    | cat a b =>
      simp only [runR] at h
      obtain ⟨t, c2, hma, hk⟩ := ih a s caps _ res h
      obtain ⟨u, c3, hmb, hk2⟩ := ih b t c2 k res hk
      exact ⟨u, c3, RMatch.cat hma hmb, hk2⟩
    | alt a b =>
      simp only [runR] at h
      cases hfirst : runR fuel a s caps k with
      | some r1 =>
        rw [hfirst] at h
        obtain ⟨t, c2, hma, hk⟩ := ih a s caps k r1 hfirst
        cases h
        exact ⟨t, c2, RMatch.altL hma, hk⟩
      | none =>
        rw [hfirst] at h
        obtain ⟨t, c2, hmb, hk⟩ := ih b s caps k res h
        exact ⟨t, c2, RMatch.altR hmb, hk⟩
    | star a =>
      simp only [runR] at h
      cases hfirst : runR fuel a s caps
          (fun t caps2 =>
            if t.length < s.length then runR fuel (Regex.star a) t caps2 k else none) with
      | some r1 =>
        rw [hfirst] at h
        obtain ⟨t, c2, hma, hk⟩ := ih a s caps _ r1 hfirst
        by_cases hlen : t.length < s.length
        · rw [if_pos hlen] at hk
          cases h
          obtain ⟨u, c3, hms, hk2⟩ := ih (Regex.star a) t c2 k _ hk
          exact ⟨u, c3, RMatch.starCons hma hms, hk2⟩
        · rw [if_neg hlen] at hk
          exact absurd hk (by simp)
      | none =>
        rw [hfirst] at h
        exact ⟨s, caps, RMatch.starNil, h⟩
    | group n a =>
      simp only [runR] at h
      obtain ⟨t, c2, hma, hk⟩ := ih a s caps _ res h
      exact ⟨t, setCap c2 n (s.take (s.length - t.length)), RMatch.group hma, hk⟩

/-! #### Quote parity: a full match consumes an even number of quote characters -/

/-- Number of double quotes in a character list. -/
def qcount (l : List Char) : Nat := l.count '\x22'

/-- `QP r b`: every string matched by `r` contains a number of double quotes
congruent to `b` modulo two.  It is established structurally: character
classes either exclude or consist solely of the quote character, alternation
branches must agree, and repeated bodies must be even. -/
inductive QP : Regex → Bool → Prop where
  | eps : QP Regex.eps false
  | clsFalse {p} : (∀ c, p c = true → isQuoteCh c = false) → QP (Regex.cls p) false
  | clsQuote {p} : (∀ c, p c = true → isQuoteCh c = true) → QP (Regex.cls p) true
  | cat {a b x y} : QP a x → QP b y → QP (Regex.cat a b) (xor x y)
  | alt {a b x} : QP a x → QP b x → QP (Regex.alt a b) x
  | star {a} : QP a false → QP (Regex.star a) false
  | group {n a x} : QP a x → QP (Regex.group n a) x

theorem rmatch_parity {r : Regex} {s t : List Char} :
    RMatch r s t → ∀ {b : Bool}, QP r b →
      qcount s % 2 = (qcount t + (if b then 1 else 0)) % 2 := by
  intro hm
  induction hm with
  | eps =>
    intro b hq
    cases hq
    simp
  | @cls p c s hp =>
    intro b hq
    cases hq with
    | clsFalse hcl =>
      have hne : (c == '\x22') = false := by
        have := hcl c hp
        simpa [isQuoteCh] using this
      simp [qcount, List.count_cons, hne]
    | clsQuote hcl =>
      have heq : (c == '\x22') = true := by
        have := hcl c hp
        simpa [isQuoteCh] using this
      simp [qcount, List.count_cons, heq, Nat.add_mod_right]
  | cat hma hmb iha ihb =>
    intro b hq
    cases hq with
    | cat hqa hqb =>
      rename_i x y
      have h1 := iha hqa
      have h2 := ihb hqb
      cases x <;> cases y <;> simp at h1 h2 ⊢ <;> omega
  | altL hma iha =>
    intro b hq
    cases hq with
    | alt hqa _ => exact iha hqa
  | altR hmb ihb =>
    intro b hq
    cases hq with
    | alt _ hqb => exact ihb hqb
  | starNil =>
    intro b hq
    cases hq
    simp
  | starCons hma hms iha ihs =>
    intro b hq
    cases hq with
    | star hqa =>
      have h1 := iha hqa
      have h2 := ihs (QP.star hqa)
      simp at h1 h2 ⊢
      omega
  | group hma iha =>
    intro b hq
    cases hq with
    | group hqa => exact iha hqa

theorem space_not_quote : ∀ c, isGoRegexSpace c = true → isQuoteCh c = false := by
  intro c h
  simp only [isGoRegexSpace, Bool.or_eq_true, beq_iff_eq] at h
  rcases h with ((((h | h) | h) | h) | h) <;> subst h <;> decide

theorem word_not_quote : ∀ c, isWordCh c = true → isQuoteCh c = false := by
  intro c h
  simp only [isWordCh, Bool.and_eq_true, Bool.not_eq_true'] at h
  exact h.2

theorem qp_wsStar : QP wsStar false :=
  QP.star (QP.clsFalse space_not_quote)

theorem qp_rplus {r : Regex} (h : QP r false) : QP (rplus r) false :=
  QP.cat h (QP.star h)

theorem qp_wsPlus : QP wsPlus false :=
  qp_rplus (QP.clsFalse space_not_quote)

theorem qp_wordPlus : QP wordPlus false :=
  qp_rplus (QP.clsFalse word_not_quote)

theorem qp_bareToken : QP bareToken false :=
  QP.cat qp_wordPlus qp_wsStar

theorem qp_quotedPhrase : QP quotedPhrase false :=
  QP.cat (QP.clsQuote (fun _ h => h))
    (QP.cat (qp_rplus qp_bareToken) (QP.clsQuote (fun _ h => h)))

theorem qp_keywordsRegex : QP keywordsRegex false :=
  QP.group (QP.alt (qp_rplus qp_quotedPhrase) (qp_rplus qp_bareToken))

theorem qp_captionInner : QP captionInner false :=
  qp_rplus (QP.cat qp_wsStar (QP.cat qp_wordPlus qp_wsStar))

theorem qp_captionRegex : QP captionRegex false :=
  QP.alt
    (QP.group
      (QP.cat qp_wsPlus
        (QP.cat (QP.clsQuote (fun _ h => h))
          (QP.cat qp_captionInner (QP.clsQuote (fun _ h => h))))))
    QP.eps

theorem qp_commandRegex : QP commandRegex false :=
  QP.cat qp_wsStar (QP.cat qp_keywordsRegex (QP.cat qp_captionRegex qp_wsStar))

/-- A successful anchored full match of the command regexp means the input
holds an even number of double quotes. -/
theorem matchFull_even {fuel : Nat} {s : List Char} {caps : Captures}
    (h : matchFull fuel commandRegex s = some caps) : qcount s % 2 = 0 := by
  obtain ⟨t, c2, hm, hk⟩ := runR_sound fuel commandRegex s noCaps _ caps h
  by_cases ht : t = []
  · subst ht
    have := rmatch_parity hm qp_commandRegex
    simpa [qcount] using this
  · rw [if_neg ht] at hk
    exact absurd hk (by simp)

/-- Removing one occurrence of a quote-free pattern does not change the
number of double quotes. -/
theorem qcount_replaceOnce (pat : List Char) (hp : qcount pat = 0) :
    ∀ s, qcount (replaceOnce s pat) = qcount s := by
  intro s
  induction s with
  | nil => rfl
  | cons c cs ih =>
    simp only [replaceOnce]
    by_cases hpre : pat.isPrefixOf (c :: cs) = true
    · rw [if_pos hpre]
      obtain ⟨rest, hrest⟩ := List.isPrefixOf_iff_prefix.mp hpre
      rw [← hrest, List.drop_left]
      simp only [qcount, List.count_append] at *
      omega
    · rw [if_neg hpre]
      simp only [qcount, List.count_cons] at *
      omega

/-! ### `server/commands.go` -/

def triggerGif : String := "gif"

def triggerGifs : String := "gifs"

/-- `getHintMessage` from `server/commands.go`. -/
def getHintMessage (trigger : String) : String :=
  "[happy kitty] or /" ++ trigger ++ " \"[happy kitty]\" \"[This is a custom caption]\""

/-- The error message built by `parseCommandLine` when the regexp does not match. -/
def badCommandMessage (trigger : String) : String :=
  "Could not read the command, try one of the following syntax: /" ++ trigger ++ " "
    ++ getHintMessage trigger

/-- `parseCommandLine` from `server/commands.go`: strip the first occurrence of
the trigger (`/gif`), run the regexp, and trim whitespace and quotes from the
`keywords` and `caption` captures. -/
def parseCommandLine (commandLine trigger : String) : Except String (String × String) :=
  match matchFull regexFuel commandRegex (replaceOnce commandLine.data ("/" ++ trigger).data) with
  | none => Except.error (badCommandMessage trigger)
  | some caps =>
    Except.ok
      (String.mk (trimQuoteChars (trimSpaceChars ((caps 1).getD []))),
       String.mk (trimQuoteChars (trimSpaceChars ((caps 5).getD []))))

/-- Modelled from the spec: the display-mode enum of the configuration package
(not part of the excerpt) distinguishes full-URL rendering from embedded-image
rendering. -/
def DisplayModeFullURL : String := "full-url"

/-- Modelled from the spec: the embedded-image display mode constant. -/
def DisplayModeEmbedded : String := "embedded"

/-- `generateGifCaption` from `server/commands.go`: if the caption is empty, a
default caption linking the keywords to the GIF URL is synthesized; full-URL
mode appends the raw URL on its own line, embedded mode emits image markup. -/
def generateGifCaption (displayMode keywords caption gifURL attributionMessage : String) :
    String :=
  let captionOrKeywords :=
    if caption = "" then "**/gif [" ++ keywords ++ "](" ++ gifURL ++ ")**" else caption
  if displayMode = DisplayModeFullURL then
    captionOrKeywords ++ " \n\n" ++ gifURL ++ " *" ++ attributionMessage ++ "*"
  else
    captionOrKeywords ++ " \n\n*" ++ attributionMessage ++ "* \n\n![GIF for \x27"
      ++ keywords ++ "\x27](" ++ gifURL ++ ")"

/-- The small state bag carried by the interactive post's buttons
(`generateShufflePostAttachments` context in `server/commands.go`). -/
structure ActionContext where
  keywords : String
  caption : String
  gifURL : String
  cursor : String
  rootId : String
deriving DecidableEq

/-- A Mattermost post, reduced to the fields the plugin reads or writes.  The
`context` field stands for the action context carried by the interactive
attachments, when any. -/
structure Post where
  id : String
  message : String
  userId : String
  channelId : String
  rootId : String
  context : Option ActionContext
deriving DecidableEq

/-- The plugin instance: configuration, bot identity, and the host / provider
capability surface the handlers call into.  The provider is abstracted as a
function from keywords and cursor to either an error or a URL together with
the advanced cursor; `createPostResult` is the outcome the host returns for
`CreatePost`. -/
structure PluginM where
  displayMode : String
  botId : String
  attributionMessage : String
  getGifURL : String → String → Except String (String × String)
  hasPermission : String → String → Bool
  createPostResult : Option String

structure CommandArgs where
  channelId : String
  rootId : String
  userId : String
deriving DecidableEq

structure CommandResponse where
  responseType : String
  text : String
deriving DecidableEq

def COMMAND_RESPONSE_TYPE_IN_CHANNEL : String := "in_channel"

/-- `generateGifPost` from `server/commands.go`: a post whose message is the
caption rendered with the configured display mode. -/
def generateGifPost (p : PluginM)
    (userId keywords caption gifURL channelId rootId attributionMessage : String) : Post :=
  { id := ""
    message := generateGifCaption p.displayMode keywords caption gifURL attributionMessage
    userId := userId
    channelId := channelId
    rootId := rootId
    context := none }

/-- `executeCommandGif` from `server/commands.go`.  The first component lists
the `(keywords, cursor)` arguments of every `GetGifURL` call performed. -/
def executeCommandGif (p : PluginM) (command : String) :
    List (String × String) × Except String CommandResponse :=
  match parseCommandLine command triggerGif with
  | Except.error e => ([], Except.error e)
  | Except.ok (keywords, caption) =>
    match p.getGifURL keywords "" with
    | Except.error e => ([(keywords, "")], Except.error e)
    | Except.ok (gifURL, _) =>
      ([(keywords, "")],
       Except.ok
        { responseType := COMMAND_RESPONSE_TYPE_IN_CHANNEL
          text := generateGifCaption p.displayMode keywords caption gifURL
            p.attributionMessage })

/-- The ephemeral preview returned by the shuffle command: the user it is
shown to, and the post carrying the action context. -/
structure EphemeralPreview where
  userId : String
  post : Post
deriving DecidableEq

/-- `executeCommandGifShuffle` from `server/commands.go`: the post is built
through `generateGifPost` (configured display mode) and its message is then
overwritten with the embedded rendering; the attachments carry the action
context with the advanced cursor. -/
def executeCommandGifShuffle (p : PluginM) (command : String) (args : CommandArgs) :
    List (String × String) × Except String EphemeralPreview :=
  match parseCommandLine command triggerGifs with
  | Except.error e => ([], Except.error e)
  | Except.ok (keywords, caption) =>
    match p.getGifURL keywords "" with
    | Except.error e => ([(keywords, "")], Except.error e)
    | Except.ok (gifURL, cursor) =>
      let post := generateGifPost p p.botId keywords caption gifURL
        args.channelId args.rootId p.attributionMessage
      let post :=
        { post with
            message := generateGifCaption DisplayModeEmbedded keywords caption gifURL
              p.attributionMessage
            context := some
              { keywords := keywords, caption := caption, gifURL := gifURL
                cursor := cursor, rootId := args.rootId } }
      ([(keywords, "")], Except.ok { userId := args.userId, post := post })

/-! ### The GIF providers

Modelled from the spec: the sources of `giphy.go` and `gfycat.go` are not in
the excerpt (only their tests are), so `GetGifURL` and the request building
are embedded following spec section 4.2, with message containment modelled as
membership in a list of message fragments. -/

/-- Modelled from the spec: the typed error taxonomy of the provider layer. -/
inductive ProviderError : Type where
  | rateLimited (statusText : String) (keyNote : String)
  | searchFailed (statusText : String)
  | emptyBody
  | parseFailure
  | renditionNotFound (rendition : String)
deriving DecidableEq

/-- The fragments a rendered error message contains. -/
def ProviderError.messageParts : ProviderError → List String
  | ProviderError.rateLimited statusText keyNote => ["Error HTTP status", statusText, keyNote]
  | ProviderError.searchFailed statusText => ["Error HTTP status", statusText]
  | ProviderError.emptyBody => ["empty response body"]
  | ProviderError.parseFailure => ["could not parse response body"]
  | ProviderError.renditionNotFound rendition =>
      ["No URL found for display style", rendition]

/-- The message references the shared default API key of one of the providers. -/
def mentionsDefaultAPIKey (parts : List String) : Prop :=
  "default Giphy API key" ∈ parts ∨ "default Gfycat API key" ∈ parts

instance (parts : List String) : Decidable (mentionsDefaultAPIKey parts) := by
  unfold mentionsDefaultAPIKey; infer_instance

/-- A provider HTTP response body: empty, structurally invalid JSON, or an
already-decoded value. -/
inductive BodyState (α : Type) : Type where
  | empty : BodyState α
  | invalid : BodyState α
  | parsed (v : α) : BodyState α
deriving DecidableEq

/-- A provider HTTP response: numeric status code, status text, body. -/
structure HTTPResp (α : Type) : Type where
  statusCode : Nat
  statusText : String
  body : BodyState α
deriving DecidableEq

structure GiphyImage where
  url : String
deriving DecidableEq

/-- One entry of the Giphy `data` array: a rendition-name-indexed mapping. -/
structure GiphyGifObject where
  images : List (String × GiphyImage)
deriving DecidableEq

structure GiphyResponse where
  data : List GiphyGifObject
deriving DecidableEq

/-- Modelled from the spec: the non-negative integer parse applied to the
Giphy cursor (Go `strconv.Atoi` restricted to the non-negative results the
spec admits as offsets). -/
def parseNonNegInt (s : String) : Option Nat :=
  if s.data ≠ [] ∧ s.data.all (fun c => c.isDigit) then
    some (s.data.foldl (fun n c => n * 10 + (c.toNat - 48)) 0)
  else none

/-- The Giphy provider value (immutable configuration). -/
structure giphy where
  apiKey : String
  rating : String
  language : String
  rendition : String
deriving DecidableEq

/-- Modelled from the spec: the query parameters of the Giphy search request.
The pagination offset appears only when the cursor parses as a non-negative
integer; rating and language only when configured non-empty. -/
def giphy.requestParams (g : giphy) (keywords cursor : String) : List (String × String) :=
  [("api_key", g.apiKey), ("q", keywords), ("limit", "1")]
    ++ (match parseNonNegInt cursor with
        | some n => [("offset", toString n)]
        | none => [])
    ++ (if g.rating = "" then [] else [("rating", g.rating)])
    ++ (if g.language = "" then [] else [("lang", g.language)])

/-- Modelled from the spec: Giphy `GetGifURL` on an already-performed HTTP
exchange.  Returns the URL and the advanced cursor; a 429 is a rate-limit
error naming the default key, any other non-2xx a search failure, zero
results are not an error, and on success the cursor becomes the string of
(previous offset + number of results). -/
def giphy.GetGifURL (g : giphy) (keywords cursor : String)
    (resp : HTTPResp GiphyResponse) : Except ProviderError (String × String) :=
  if resp.statusCode = 429 then
    Except.error (ProviderError.rateLimited resp.statusText "default Giphy API key")
  else if resp.statusCode < 200 ∨ 300 ≤ resp.statusCode then
    Except.error (ProviderError.searchFailed resp.statusText)
  else
    match resp.body with
    | BodyState.empty => Except.error ProviderError.emptyBody
    | BodyState.invalid => Except.error ProviderError.parseFailure
    | BodyState.parsed r =>
      match r.data with
      | [] => Except.ok ("", cursor)
      | d :: _ =>
        match List.lookup g.rendition d.images with
        | none => Except.error (ProviderError.renditionNotFound g.rendition)
        | some img =>
          Except.ok (img.url, toString ((parseNonNegInt cursor).getD 0 + r.data.length))

/-- The decoded Gfycat search response: the next-page cursor the provider
reports and the result array, each entry a rendition-name-indexed mapping. -/
structure GfycatResponse where
  cursor : String
  gfycats : List (List (String × String))
deriving DecidableEq

/-- The Gfycat provider value. -/
structure gfycat where
  rendition : String
deriving DecidableEq

/-- Modelled from the spec: the query parameters of the Gfycat search request.
The cursor parameter appears verbatim when non-empty and is omitted otherwise. -/
def gfycat.requestParams (g : gfycat) (keywords cursor : String) : List (String × String) :=
  [("search_text", keywords), ("count", "1")]
    ++ (if cursor = "" then [] else [("cursor", cursor)])

/-- Modelled from the spec: Gfycat `GetGifURL`.  On success with at least one
result the cursor is overwritten with the `cursor` field of the response. -/
def gfycat.GetGifURL (g : gfycat) (keywords cursor : String)
    (resp : HTTPResp GfycatResponse) : Except ProviderError (String × String) :=
  if resp.statusCode = 429 then
    Except.error (ProviderError.rateLimited resp.statusText "default Gfycat API key")
  else if resp.statusCode < 200 ∨ 300 ≤ resp.statusCode then
    Except.error (ProviderError.searchFailed resp.statusText)
  else
    match resp.body with
    | BodyState.empty => Except.error ProviderError.emptyBody
    | BodyState.invalid => Except.error ProviderError.parseFailure
    | BodyState.parsed r =>
      match r.gfycats with
      | [] => Except.ok ("", cursor)
      | item :: _ =>
        match List.lookup g.rendition item with
        | none => Except.error (ProviderError.renditionNotFound g.rendition)
        | some url =>
          if url = "" then Except.error (ProviderError.renditionNotFound g.rendition)
          else Except.ok (url, r.cursor)

/-! ### The HTTP callback handler

Modelled from the spec: `httpHandler.go` is not in the excerpt (only its
tests are).  Each handler returns its HTTP status, the list of host mutation
calls performed, the user notifications sent, and the provider calls made. -/

def URLCancel : String := "/cancel"
def URLShuffle : String := "/shuffle"
def URLSend : String := "/send"

/-- The decoded callback body (the `integrationRequest` of the tests). -/
structure integrationRequest where
  gifURL : String
  keywords : String
  caption : String
  cursor : String
  rootId : String
  channelId : String
  userId : String
  postId : String
deriving DecidableEq

/-- A host mutation operation performed by a handler. -/
inductive HostCall : Type where
  | deleteEphemeralPost (userId postId : String)
  | updateEphemeralPost (userId : String) (post : Post)
  | createPost (post : Post)
deriving DecidableEq

/-- What one HTTP callback produced: status code, host mutations, user
notifications, and the `(keywords, cursor)` provider calls. -/
structure HandlerOutcome where
  status : Nat
  calls : List HostCall
  notifications : List String
  providerCalls : List (String × String)
deriving DecidableEq

def emptyOutcome (code : Nat) : HandlerOutcome :=
  { status := code, calls := [], notifications := [], providerCalls := [] }

/-- Modelled from the spec: the cancel transition deletes the ephemeral post. -/
def handleCancel (req : integrationRequest) : HandlerOutcome :=
  { status := 200
    calls := [HostCall.deleteEphemeralPost req.userId req.postId]
    notifications := []
    providerCalls := [] }

/-- Modelled from the spec: the shuffle transition re-invokes the provider
with the context's keywords and cursor; on success the ephemeral post is
updated in place with the embedded rendering and a refreshed context; zero
results notify the user without error; a provider error yields 503 and no
update. -/
def handleShuffle (p : PluginM) (req : integrationRequest) : HandlerOutcome :=
  match p.getGifURL req.keywords req.cursor with
  | Except.error e =>
    { status := 503
      calls := []
      notifications := ["Unable to fetch a new Gif for shuffling: " ++ e]
      providerCalls := [(req.keywords, req.cursor)] }
  | Except.ok (url, newCursor) =>
    if url = "" then
      { status := 200
        calls := []
        notifications := ["No more GIF results found for those search keywords"]
        providerCalls := [(req.keywords, req.cursor)] }
    else
      { status := 200
        calls := [HostCall.updateEphemeralPost req.userId
          { id := req.postId
            message := generateGifCaption DisplayModeEmbedded req.keywords req.caption url
              p.attributionMessage
            userId := p.botId
            channelId := req.channelId
            rootId := req.rootId
            context := some
              { keywords := req.keywords, caption := req.caption, gifURL := url
                cursor := newCursor, rootId := req.rootId } }]
        notifications := []
        providerCalls := [(req.keywords, req.cursor)] }

/-- Modelled from the spec: the send transition deletes the ephemeral post and
creates a permanent post authored as the invoking user from the context's
stored URL and caption; a creation failure notifies the user after the
deletion already happened. -/
def handleSend (p : PluginM) (req : integrationRequest) : HandlerOutcome :=
  let post : Post :=
    { id := ""
      message := generateGifCaption p.displayMode req.keywords req.caption req.gifURL
        p.attributionMessage
      userId := req.userId
      channelId := req.channelId
      rootId := req.rootId
      context := none }
  match p.createPostResult with
  | some err =>
    { status := 500
      calls := [HostCall.deleteEphemeralPost req.userId req.postId, HostCall.createPost post]
      notifications := ["Unable to create the post: " ++ err]
      providerCalls := [] }
  | none =>
    { status := 200
      calls := [HostCall.deleteEphemeralPost req.userId req.postId, HostCall.createPost post]
      notifications := []
      providerCalls := [] }

/-- An incoming HTTP callback request. -/
structure HttpRequest where
  method : String
  path : String
  userIdHeader : Option String
  body : Option integrationRequest

/-- Modelled from the spec: the HTTP callback entry point.  Non-POST methods
get 405; a missing identity header 401; an unreadable or unparseable body
400; an identity header not matching the payload user 400; missing channel
posting permission 403; an unknown action path 404; otherwise the transition
handlers run. -/
def handleHTTPRequest (p : PluginM) (r : HttpRequest) : HandlerOutcome :=
  if r.method ≠ "POST" then emptyOutcome 405
  else
    match r.userIdHeader with
    | none => emptyOutcome 401
    | some uid =>
      match r.body with
      | none => emptyOutcome 400
      | some req =>
        if req.userId ≠ uid then emptyOutcome 400
        else if p.hasPermission req.userId req.channelId = false then emptyOutcome 403
        else if r.path = URLCancel then handleCancel req
        else if r.path = URLShuffle then handleShuffle p req
        else if r.path = URLSend then handleSend p req
        else emptyOutcome 404

/-! ### Helper lemmas -/

theorem containsStr_append_left {a : String} (b : String) {sub : String}
    (h : containsStr a sub) : containsStr (a ++ b) sub := by
  obtain ⟨s, t, hst⟩ := h
  refine ⟨s, t ++ b.data, ?_⟩
  rw [String.data_append, ← hst]
  simp [List.append_assoc]

/-- Every caption rendered by `generateGifCaption` contains the GIF URL. -/
theorem generateGifCaption_contains_gifURL (dm kw cap url att : String) :
    containsStr (generateGifCaption dm kw cap url att) url := by
  unfold containsStr generateGifCaption
  by_cases hdm : dm = DisplayModeFullURL
  · rw [if_pos hdm]
    refine ⟨((if cap = "" then "**/gif [" ++ kw ++ "](" ++ url ++ ")**" else cap)
      ++ " \n\n").data, (" *" ++ att ++ "*").data, ?_⟩
    simp [String.data_append, List.append_assoc]
  · rw [if_neg hdm]
    refine ⟨((if cap = "" then "**/gif [" ++ kw ++ "](" ++ url ++ ")**" else cap)
      ++ " \n\n*" ++ att ++ "* \n\n![GIF for \x27" ++ kw ++ "\x27](").data,
      (")" : String).data, ?_⟩
    simp [String.data_append, List.append_assoc]

/-- A fixed plugin instance used to instantiate the witnesses. -/
def testPlugin : PluginM :=
  { displayMode := DisplayModeFullURL
    botId := "bot"
    attributionMessage := "Powered by TestProvider"
    getGifURL := fun _ _ => Except.ok ("fakeURL", "44")
    hasPermission := fun _ _ => true
    createPostResult := none }

/-! ### Claims -/

/-- Claim C5: `parseCommandLine` maps the `/gif "happy kitty" "custom caption"`
invocation to keywords `happy kitty` and caption `custom caption`, maps
`/gif happy kitty` to keywords `happy kitty` and an empty caption, the syntax
error message contains the usage hint, and every input with an odd number of
double quotes (unbalanced quotes) fails with that syntax error. -/
theorem claim_C5 :
    parseCommandLine "/gif \"happy kitty\" \"custom caption\"" "gif"
      = Except.ok ("happy kitty", "custom caption")
    ∧ parseCommandLine "/gif happy kitty" "gif" = Except.ok ("happy kitty", "")
    ∧ containsStr (badCommandMessage "gif") (getHintMessage "gif")
    ∧ ∀ s : String, qcount s.data % 2 = 1 →
        parseCommandLine s "gif" = Except.error (badCommandMessage "gif") := by
  refine ⟨by rfl, by rfl, by decide, ?_⟩
  intro s h
  unfold parseCommandLine
  cases hm : matchFull regexFuel commandRegex (replaceOnce s.data ("/" ++ "gif").data) with
  | none => rfl
  | some caps =>
    exfalso
    have heven := matchFull_even hm
    have hq := qcount_replaceOnce (("/" ++ "gif" : String).data) (by decide) s.data
    omega

theorem claim_C5_witness :
    qcount ("/gif \"oops" : String).data % 2 = 1
    ∧ parseCommandLine "/gif \"oops" "gif" = Except.error (badCommandMessage "gif") :=
  ⟨by decide, claim_C5.2.2.2 "/gif \"oops" (by decide)⟩

/-- Claim C9: the `/gifs` ephemeral preview message is rendered in embedded
display mode regardless of the configured display mode (the configured mode
has no influence on it), while the `/gif` public post text uses the configured
display mode, and the two renderings genuinely differ. -/
theorem claim_C9 :
    (∀ (p : PluginM) (command : String) (args : CommandArgs)
        (keywords caption gifURL cursor : String),
      parseCommandLine command triggerGifs = Except.ok (keywords, caption) →
      p.getGifURL keywords "" = Except.ok (gifURL, cursor) →
      ∃ prev, (executeCommandGifShuffle p command args).2 = Except.ok prev ∧
        prev.post.message
          = generateGifCaption DisplayModeEmbedded keywords caption gifURL
              p.attributionMessage)
    ∧ (∀ (p : PluginM) (dm1 dm2 command : String) (args : CommandArgs),
        (executeCommandGifShuffle { p with displayMode := dm1 } command args).2.map
            (fun prev => prev.post.message)
          = (executeCommandGifShuffle { p with displayMode := dm2 } command args).2.map
            (fun prev => prev.post.message))
    ∧ (∀ (p : PluginM) (command keywords caption gifURL cursor : String),
      parseCommandLine command triggerGif = Except.ok (keywords, caption) →
      p.getGifURL keywords "" = Except.ok (gifURL, cursor) →
      (executeCommandGif p command).2 = Except.ok
        { responseType := COMMAND_RESPONSE_TYPE_IN_CHANNEL
          text := generateGifCaption p.displayMode keywords caption gifURL
            p.attributionMessage })
    ∧ generateGifCaption DisplayModeFullURL "kitty" "cap" "u" "att"
        ≠ generateGifCaption DisplayModeEmbedded "kitty" "cap" "u" "att" := by
  refine ⟨?_, ?_, ?_, by decide⟩
  · intro p command args keywords caption gifURL cursor hp hg
    simp only [executeCommandGifShuffle, hp, hg]
    exact ⟨_, rfl, rfl⟩
  · intro p dm1 dm2 command args
    unfold executeCommandGifShuffle
    cases hp : parseCommandLine command triggerGifs with
    | error e => rfl
    | ok kc =>
      obtain ⟨keywords, caption⟩ := kc
      cases hg : p.getGifURL keywords "" with
      | error e => simp [hg, Except.map, generateGifPost]
      | ok uc => simp [hg, Except.map, generateGifPost]
  · intro p command keywords caption gifURL cursor hp hg
    simp only [executeCommandGif, hp, hg]

theorem claim_C9_witness :
    ∃ prev,
      (executeCommandGifShuffle testPlugin "/gifs kitty"
        { channelId := "chan", rootId := "root", userId := "user" }).2
        = Except.ok prev ∧
      prev.post.message
        = generateGifCaption DisplayModeEmbedded "kitty" "" "fakeURL"
            testPlugin.attributionMessage :=
  claim_C9.1 testPlugin "/gifs kitty"
    { channelId := "chan", rootId := "root", userId := "user" }
    "kitty" "" "fakeURL" "44" (by rfl) (by rfl)

/-- Claim C10: both slash commands call the provider with an initial empty
cursor (every provider call they perform carries cursor `""`), and only the
interactive shuffle transition forwards the non-empty cursor carried by the
action context. -/
theorem claim_C10 :
    (∀ (p : PluginM) (command : String) (call : String × String),
      call ∈ (executeCommandGif p command).1 → call.2 = "")
    ∧ (∀ (p : PluginM) (command : String) (args : CommandArgs) (call : String × String),
      call ∈ (executeCommandGifShuffle p command args).1 → call.2 = "")
    ∧ (∀ (p : PluginM) (req : integrationRequest),
      (handleShuffle p req).providerCalls = [(req.keywords, req.cursor)]) := by
  refine ⟨?_, ?_, ?_⟩
  · intro p command call hc
    unfold executeCommandGif at hc
    cases hp : parseCommandLine command triggerGif with
    | error e => simp only [hp] at hc; simp at hc
    | ok kc =>
      obtain ⟨keywords, caption⟩ := kc
      simp only [hp] at hc
      cases hg : p.getGifURL keywords "" with
      | error e =>
        simp only [hg] at hc
        simp at hc
        rw [hc]
      | ok uc =>
        obtain ⟨url, cur⟩ := uc
        simp only [hg] at hc
        simp at hc
        rw [hc]
  · intro p command args call hc
    unfold executeCommandGifShuffle at hc
    cases hp : parseCommandLine command triggerGifs with
    | error e => simp only [hp] at hc; simp at hc
    | ok kc =>
      obtain ⟨keywords, caption⟩ := kc
      simp only [hp] at hc
      cases hg : p.getGifURL keywords "" with
      | error e =>
        simp only [hg] at hc
        simp at hc
        rw [hc]
      | ok uc =>
        obtain ⟨url, cur⟩ := uc
        simp only [hg] at hc
        simp at hc
        rw [hc]
  · intro p req
    unfold handleShuffle
    cases p.getGifURL req.keywords req.cursor with
    | error e => rfl
    | ok uc =>
      obtain ⟨url, newCursor⟩ := uc
      by_cases hu : url = "" <;> simp [hu]

theorem claim_C10_witness :
    ("kitty", "") ∈ (executeCommandGif testPlugin "/gif kitty").1
    ∧ (("kitty", "") : String × String).2 = "" :=
  ⟨by decide, claim_C10.1 testPlugin "/gif kitty" ("kitty", "") (by decide)⟩

/-- Claim C1: on a successful search with at least one result the cursor is
overwritten with the provider's next-page token — Giphy: `"1"` after a
single-result page whether the incoming cursor was empty, `"0"` or
unparseable; Gfycat: the `cursor` field of the provider's response. -/
theorem claim_C1 :
    (∀ (g : giphy) (keywords cursor statusText : String) (d : GiphyGifObject)
        (img : GiphyImage),
      (parseNonNegInt cursor = none ∨ parseNonNegInt cursor = some 0) →
      List.lookup g.rendition d.images = some img →
      giphy.GetGifURL g keywords cursor
        { statusCode := 200, statusText := statusText, body := BodyState.parsed ⟨[d]⟩ }
        = Except.ok (img.url, "1"))
    ∧ (∀ (g : gfycat) (keywords cursor statusText : String) (r : GfycatResponse)
        (item : List (String × String)) (rest : List (List (String × String)))
        (url : String),
      r.gfycats = item :: rest →
      List.lookup g.rendition item = some url → url ≠ "" →
      gfycat.GetGifURL g keywords cursor
        { statusCode := 200, statusText := statusText, body := BodyState.parsed r }
        = Except.ok (url, r.cursor)) := by
  constructor
  · intro g keywords cursor statusText d img hcur hlook
    simp only [giphy.GetGifURL]
    rw [if_neg (by omega), if_neg (by omega)]
    simp only [hlook]
    rcases hcur with h | h <;> rw [h] <;> simp <;> rfl
  · intro g keywords cursor statusText r item rest url hg hlook hurl
    simp only [gfycat.GetGifURL]
    rw [if_neg (by omega), if_neg (by omega)]
    simp only [hg, hlook]
    rw [if_neg hurl]

theorem claim_C1_witness :
    (parseNonNegInt "hahaha" = none ∨ parseNonNegInt "hahaha" = some 0)
    ∧ List.lookup "fixed_height_small"
        [("fixed_height_small", (⟨"url"⟩ : GiphyImage))] = some ⟨"url"⟩
    ∧ giphy.GetGifURL ⟨"apikey", "R", "fr", "fixed_height_small"⟩ "cat" "hahaha"
        { statusCode := 200, statusText := "200 OK"
          body := BodyState.parsed ⟨[⟨[("fixed_height_small", ⟨"url"⟩)]⟩]⟩ }
        = Except.ok ("url", "1") :=
  ⟨Or.inl (by decide), by decide,
   claim_C1.1 ⟨"apikey", "R", "fr", "fixed_height_small"⟩ "cat" "hahaha" "200 OK"
     ⟨[("fixed_height_small", ⟨"url"⟩)]⟩ ⟨"url"⟩ (Or.inl (by decide)) (by decide)⟩

/-- Claim C2: a structurally valid response with zero result entries makes
`GetGifURL` return the empty string and no error, for both providers. -/
theorem claim_C2 :
    (∀ (g : giphy) (keywords cursor statusText : String) (code : Nat),
      200 ≤ code → code < 300 →
      giphy.GetGifURL g keywords cursor
        { statusCode := code, statusText := statusText, body := BodyState.parsed ⟨[]⟩ }
        = Except.ok ("", cursor))
    ∧ (∀ (g : gfycat) (keywords cursor statusText rcur : String) (code : Nat),
      200 ≤ code → code < 300 →
      gfycat.GetGifURL g keywords cursor
        { statusCode := code, statusText := statusText
          body := BodyState.parsed ⟨rcur, []⟩ }
        = Except.ok ("", cursor)) := by
  constructor
  · intro g keywords cursor statusText code h1 h2
    simp only [giphy.GetGifURL]
    rw [if_neg (by omega), if_neg (by omega)]
  · intro g keywords cursor statusText rcur code h1 h2
    simp only [gfycat.GetGifURL]
    rw [if_neg (by omega), if_neg (by omega)]

theorem claim_C2_witness :
    (200 ≤ 200 ∧ 200 < 300)
    ∧ giphy.GetGifURL ⟨"apikey", "R", "fr", "fixed_height_small"⟩ "cat" ""
        { statusCode := 200, statusText := "200 OK", body := BodyState.parsed ⟨[]⟩ }
        = Except.ok ("", "")
    ∧ gfycat.GetGifURL ⟨"gif100px"⟩ "cat" ""
        { statusCode := 200, statusText := "200 OK", body := BodyState.parsed ⟨"mock", []⟩ }
        = Except.ok ("", "") :=
  ⟨⟨by decide, by decide⟩,
   claim_C2.1 ⟨"apikey", "R", "fr", "fixed_height_small"⟩ "cat" "" "200 OK" 200
     (by decide) (by decide),
   claim_C2.2 ⟨"gif100px"⟩ "cat" "" "200 OK" "mock" 200 (by decide) (by decide)⟩

/-- Claim C4: a 429 status yields an error whose message contains the status
text and a reference to the default/shared API key; any other non-2xx status
yields an error containing the status text and no API-key reference; in both
cases the result does not depend on the body (no body parsing). -/
theorem claim_C4 :
    (∀ (g : giphy) (keywords cursor statusText : String) (body : BodyState GiphyResponse),
      ∃ e, giphy.GetGifURL g keywords cursor
          { statusCode := 429, statusText := statusText, body := body } = Except.error e
        ∧ statusText ∈ e.messageParts ∧ mentionsDefaultAPIKey e.messageParts)
    ∧ (∀ (g : giphy) (keywords cursor statusText : String) (code : Nat)
        (body : BodyState GiphyResponse),
      (code < 200 ∨ 300 ≤ code) → code ≠ 429 →
      statusText ≠ "default Giphy API key" → statusText ≠ "default Gfycat API key" →
      ∃ e, giphy.GetGifURL g keywords cursor
          { statusCode := code, statusText := statusText, body := body } = Except.error e
        ∧ statusText ∈ e.messageParts ∧ ¬ mentionsDefaultAPIKey e.messageParts)
    ∧ (∀ (g : giphy) (keywords cursor statusText : String) (code : Nat)
        (b1 b2 : BodyState GiphyResponse),
      (code < 200 ∨ 300 ≤ code) →
      giphy.GetGifURL g keywords cursor
          { statusCode := code, statusText := statusText, body := b1 }
        = giphy.GetGifURL g keywords cursor
          { statusCode := code, statusText := statusText, body := b2 })
    ∧ (∀ (g : gfycat) (keywords cursor statusText : String) (body : BodyState GfycatResponse),
      ∃ e, gfycat.GetGifURL g keywords cursor
          { statusCode := 429, statusText := statusText, body := body } = Except.error e
        ∧ statusText ∈ e.messageParts ∧ mentionsDefaultAPIKey e.messageParts)
    ∧ (∀ (g : gfycat) (keywords cursor statusText : String) (code : Nat)
        (body : BodyState GfycatResponse),
      (code < 200 ∨ 300 ≤ code) → code ≠ 429 →
      statusText ≠ "default Giphy API key" → statusText ≠ "default Gfycat API key" →
      ∃ e, gfycat.GetGifURL g keywords cursor
          { statusCode := code, statusText := statusText, body := body } = Except.error e
        ∧ statusText ∈ e.messageParts ∧ ¬ mentionsDefaultAPIKey e.messageParts)
    ∧ (∀ (g : gfycat) (keywords cursor statusText : String) (code : Nat)
        (b1 b2 : BodyState GfycatResponse),
      (code < 200 ∨ 300 ≤ code) →
      gfycat.GetGifURL g keywords cursor
          { statusCode := code, statusText := statusText, body := b1 }
        = gfycat.GetGifURL g keywords cursor
          { statusCode := code, statusText := statusText, body := b2 }) := by
  refine ⟨?_, ?_, ?_, ?_, ?_, ?_⟩
  · intro g keywords cursor statusText body
    refine ⟨ProviderError.rateLimited statusText "default Giphy API key", ?_, ?_, ?_⟩
    · simp [giphy.GetGifURL]
    · simp [ProviderError.messageParts]
    · left; simp [ProviderError.messageParts]
  · intro g keywords cursor statusText code body hcode h429 hs1 hs2
    refine ⟨ProviderError.searchFailed statusText, ?_, ?_, ?_⟩
    · simp only [giphy.GetGifURL]
      rw [if_neg (by omega), if_pos (by omega)]
    · simp [ProviderError.messageParts]
    · simp only [mentionsDefaultAPIKey, ProviderError.messageParts, List.mem_cons,
        List.not_mem_nil, or_false, not_or]
      refine ⟨⟨by decide, fun h => hs1 h.symm⟩, by decide, fun h => hs2 h.symm⟩
  · intro g keywords cursor statusText code b1 b2 hcode
    by_cases h429 : code = 429
    · subst h429; simp [giphy.GetGifURL]
    · have lhs_eq : giphy.GetGifURL g keywords cursor
          { statusCode := code, statusText := statusText, body := b1 }
          = Except.error (ProviderError.searchFailed statusText) := by
        simp only [giphy.GetGifURL]
        rw [if_neg h429, if_pos hcode]
      have rhs_eq : giphy.GetGifURL g keywords cursor
          { statusCode := code, statusText := statusText, body := b2 }
          = Except.error (ProviderError.searchFailed statusText) := by
        simp only [giphy.GetGifURL]
        rw [if_neg h429, if_pos hcode]
      rw [lhs_eq, rhs_eq]
  · intro g keywords cursor statusText body
    refine ⟨ProviderError.rateLimited statusText "default Gfycat API key", ?_, ?_, ?_⟩
    · simp [gfycat.GetGifURL]
    · simp [ProviderError.messageParts]
    · right; simp [ProviderError.messageParts]
  · intro g keywords cursor statusText code body hcode h429 hs1 hs2
    refine ⟨ProviderError.searchFailed statusText, ?_, ?_, ?_⟩
    · simp only [gfycat.GetGifURL]
      rw [if_neg (by omega), if_pos (by omega)]
    · simp [ProviderError.messageParts]
    · simp only [mentionsDefaultAPIKey, ProviderError.messageParts, List.mem_cons,
        List.not_mem_nil, or_false, not_or]
      refine ⟨⟨by decide, fun h => hs1 h.symm⟩, by decide, fun h => hs2 h.symm⟩
  · intro g keywords cursor statusText code b1 b2 hcode
    by_cases h429 : code = 429
    · subst h429; simp [gfycat.GetGifURL]
    · have lhs_eq : gfycat.GetGifURL g keywords cursor
          { statusCode := code, statusText := statusText, body := b1 }
          = Except.error (ProviderError.searchFailed statusText) := by
        simp only [gfycat.GetGifURL]
        rw [if_neg h429, if_pos hcode]
      have rhs_eq : gfycat.GetGifURL g keywords cursor
          { statusCode := code, statusText := statusText, body := b2 }
          = Except.error (ProviderError.searchFailed statusText) := by
        simp only [gfycat.GetGifURL]
        rw [if_neg h429, if_pos hcode]
      rw [lhs_eq, rhs_eq]

theorem claim_C4_witness :
    ((400 : Nat) < 200 ∨ 300 ≤ 400)
    ∧ (400 : Nat) ≠ 429
    ∧ ("400 Bad Request" : String) ≠ "default Giphy API key"
    ∧ ("400 Bad Request" : String) ≠ "default Gfycat API key"
    ∧ (∃ e, giphy.GetGifURL ⟨"apikey", "R", "fr", "fixed_height_small"⟩ "cat" ""
        { statusCode := 400, statusText := "400 Bad Request", body := BodyState.empty }
        = Except.error e
      ∧ "400 Bad Request" ∈ e.messageParts ∧ ¬ mentionsDefaultAPIKey e.messageParts) :=
  ⟨Or.inr (by decide), by decide, by decide, by decide,
   claim_C4.2.1 ⟨"apikey", "R", "fr", "fixed_height_small"⟩ "cat" "" "400 Bad Request"
     400 BodyState.empty (Or.inr (by decide)) (by decide) (by decide) (by decide)⟩

/-- Claim C7: a cursor that does not parse as the provider's expected type
(non-numeric for Giphy, empty for Gfycat) makes the built request omit the
pagination parameter (`offset` resp. `cursor`), a non-empty Gfycat cursor is
passed verbatim, and such a search still succeeds rather than failing. -/
theorem claim_C7 :
    (∀ (g : giphy) (keywords cursor : String), parseNonNegInt cursor = none →
      "offset" ∉ (giphy.requestParams g keywords cursor).map Prod.fst)
    ∧ (∀ (g : gfycat) (keywords : String),
      "cursor" ∉ (gfycat.requestParams g keywords "").map Prod.fst)
    ∧ (∀ (g : gfycat) (keywords cursor : String), cursor ≠ "" →
      ("cursor", cursor) ∈ gfycat.requestParams g keywords cursor)
    ∧ (∀ (g : giphy) (keywords cursor statusText : String) (d : GiphyGifObject)
        (img : GiphyImage),
      parseNonNegInt cursor = none →
      List.lookup g.rendition d.images = some img →
      giphy.GetGifURL g keywords cursor
        { statusCode := 200, statusText := statusText, body := BodyState.parsed ⟨[d]⟩ }
        = Except.ok (img.url, "1")) := by
  refine ⟨?_, ?_, ?_, ?_⟩
  · intro g keywords cursor hcur
    simp only [giphy.requestParams, hcur]
    by_cases hr : g.rating = "" <;> by_cases hl : g.language = "" <;>
      simp [hr, hl]
  · intro g keywords
    simp [gfycat.requestParams]
  · intro g keywords cursor hcur
    simp [gfycat.requestParams, hcur]
  · intro g keywords cursor statusText d img hcur hlook
    simp only [giphy.GetGifURL]
    rw [if_neg (by omega), if_neg (by omega)]
    simp only [hlook]
    rw [hcur]
    simp
    rfl

theorem claim_C7_witness :
    parseNonNegInt "hahaha" = none
    ∧ "offset" ∉ (giphy.requestParams ⟨"apikey", "R", "fr", "fixed_height_small"⟩
        "cat" "hahaha").map Prod.fst
    ∧ ("cursor", "sdfjhsdjk") ∈ gfycat.requestParams ⟨"gif100px"⟩ "cat" "sdfjhsdjk" :=
  ⟨by decide,
   claim_C7.1 ⟨"apikey", "R", "fr", "fixed_height_small"⟩ "cat" "hahaha" (by decide),
   claim_C7.2.2.1 ⟨"gif100px"⟩ "cat" "sdfjhsdjk" (by decide)⟩

/-- Claim C3: an identity header not matching the payload user id yields a 400
response with zero host mutation calls, and a permission-check failure yields
403, likewise with zero host mutation calls. -/
theorem claim_C3 :
    (∀ (p : PluginM) (r : HttpRequest) (req : integrationRequest) (uid : String),
      r.method = "POST" → r.userIdHeader = some uid → r.body = some req →
      req.userId ≠ uid →
      (handleHTTPRequest p r).status = 400 ∧ (handleHTTPRequest p r).calls = [])
    ∧ (∀ (p : PluginM) (r : HttpRequest) (req : integrationRequest) (uid : String),
      r.method = "POST" → r.userIdHeader = some uid → r.body = some req →
      req.userId = uid → p.hasPermission req.userId req.channelId = false →
      (handleHTTPRequest p r).status = 403 ∧ (handleHTTPRequest p r).calls = []) := by
  constructor
  · intro p r req uid hm hh hb hne
    simp [handleHTTPRequest, hm, hh, hb, hne, emptyOutcome]
  · intro p r req uid hm hh hb heq hperm
    subst heq
    simp [handleHTTPRequest, hm, hh, hb, hperm, emptyOutcome]

/-- A fixed callback request used to instantiate the handler witnesses. -/
def testRequest : integrationRequest :=
  { gifURL := "https://gif.fr/gif/42", keywords := "kitty", caption := "cap"
    cursor := "43abc", rootId := "4242abc", channelId := "gifs-channel"
    userId := "gif-user", postId := "skfqsldjhfkljhf" }

theorem claim_C3_witness :
    (("POST" : String) = "POST"
      ∧ (some "other" : Option String) = some "other"
      ∧ (some testRequest : Option integrationRequest) = some testRequest
      ∧ testRequest.userId ≠ "other")
    ∧ (handleHTTPRequest testPlugin
        { method := "POST", path := URLSend, userIdHeader := some "other"
          body := some testRequest }).status = 400
    ∧ (handleHTTPRequest testPlugin
        { method := "POST", path := URLSend, userIdHeader := some "other"
          body := some testRequest }).calls = [] :=
  ⟨⟨rfl, rfl, rfl, by decide⟩,
   (claim_C3.1 testPlugin
     { method := "POST", path := URLSend, userIdHeader := some "other"
       body := some testRequest } testRequest "other" rfl rfl rfl (by decide)).1,
   (claim_C3.1 testPlugin
     { method := "POST", path := URLSend, userIdHeader := some "other"
       body := some testRequest } testRequest "other" rfl rfl rfl (by decide)).2⟩

/-- Claim C6: the HTTP callback entry point maps each outcome to its status
code — 200 for a successful cancel / shuffle / send, 400 for a malformed body
or identity mismatch, 401 for a missing identity header, 403 for permission
denied, 404 for an unknown action path, 405 for a non-POST method, 503 when
the provider call during shuffle fails. -/
theorem claim_C6 :
    (∀ (p : PluginM) (r : HttpRequest), r.method ≠ "POST" →
      (handleHTTPRequest p r).status = 405)
    ∧ (∀ (p : PluginM) (r : HttpRequest), r.method = "POST" → r.userIdHeader = none →
      (handleHTTPRequest p r).status = 401)
    ∧ (∀ (p : PluginM) (r : HttpRequest) (uid : String),
      r.method = "POST" → r.userIdHeader = some uid → r.body = none →
      (handleHTTPRequest p r).status = 400)
    ∧ (∀ (p : PluginM) (r : HttpRequest) (req : integrationRequest) (uid : String),
      r.method = "POST" → r.userIdHeader = some uid → r.body = some req →
      req.userId ≠ uid → (handleHTTPRequest p r).status = 400)
    ∧ (∀ (p : PluginM) (r : HttpRequest) (req : integrationRequest) (uid : String),
      r.method = "POST" → r.userIdHeader = some uid → r.body = some req →
      req.userId = uid → p.hasPermission req.userId req.channelId = false →
      (handleHTTPRequest p r).status = 403)
    ∧ (∀ (p : PluginM) (r : HttpRequest) (req : integrationRequest) (uid : String),
      r.method = "POST" → r.userIdHeader = some uid → r.body = some req →
      req.userId = uid → p.hasPermission req.userId req.channelId = true →
      r.path ≠ URLCancel → r.path ≠ URLShuffle → r.path ≠ URLSend →
      (handleHTTPRequest p r).status = 404)
    ∧ (∀ (p : PluginM) (r : HttpRequest) (req : integrationRequest) (uid : String),
      r.method = "POST" → r.userIdHeader = some uid → r.body = some req →
      req.userId = uid → p.hasPermission req.userId req.channelId = true →
      r.path = URLCancel → (handleHTTPRequest p r).status = 200)
    ∧ (∀ (p : PluginM) (r : HttpRequest) (req : integrationRequest) (uid : String)
        (url newCursor : String),
      r.method = "POST" → r.userIdHeader = some uid → r.body = some req →
      req.userId = uid → p.hasPermission req.userId req.channelId = true →
      r.path = URLShuffle →
      p.getGifURL req.keywords req.cursor = Except.ok (url, newCursor) →
      (handleHTTPRequest p r).status = 200)
    ∧ (∀ (p : PluginM) (r : HttpRequest) (req : integrationRequest) (uid : String),
      r.method = "POST" → r.userIdHeader = some uid → r.body = some req →
      req.userId = uid → p.hasPermission req.userId req.channelId = true →
      r.path = URLSend → p.createPostResult = none →
      (handleHTTPRequest p r).status = 200)
    ∧ (∀ (p : PluginM) (r : HttpRequest) (req : integrationRequest) (uid : String)
        (e : String),
      r.method = "POST" → r.userIdHeader = some uid → r.body = some req →
      req.userId = uid → p.hasPermission req.userId req.channelId = true →
      r.path = URLShuffle →
      p.getGifURL req.keywords req.cursor = Except.error e →
      (handleHTTPRequest p r).status = 503) := by
  refine ⟨?_, ?_, ?_, ?_, ?_, ?_, ?_, ?_, ?_, ?_⟩
  · intro p r hm
    simp [handleHTTPRequest, hm, emptyOutcome]
  · intro p r hm hh
    simp [handleHTTPRequest, hm, hh, emptyOutcome]
  · intro p r uid hm hh hb
    simp [handleHTTPRequest, hm, hh, hb, emptyOutcome]
  · intro p r req uid hm hh hb hne
    simp [handleHTTPRequest, hm, hh, hb, hne, emptyOutcome]
  · intro p r req uid hm hh hb heq hperm
    subst heq
    simp [handleHTTPRequest, hm, hh, hb, hperm, emptyOutcome]
  · intro p r req uid hm hh hb heq hperm hc hs hd
    subst heq
    simp [handleHTTPRequest, hm, hh, hb, hperm, hc, hs, hd, emptyOutcome]
  · intro p r req uid hm hh hb heq hperm hpath
    subst heq
    simp [handleHTTPRequest, hm, hh, hb, hperm, hpath, handleCancel]
  · intro p r req uid url newCursor hm hh hb heq hperm hpath hget
    subst heq
    have hcs : r.path ≠ URLCancel := by rw [hpath]; decide
    simp only [handleHTTPRequest, hm, hh, hb, hperm, hpath, hcs]
    simp [handleShuffle, hget, URLShuffle, URLCancel]
    by_cases hu : url = "" <;> simp [hu]
  · intro p r req uid hm hh hb heq hperm hpath hcreate
    subst heq
    have hcs : r.path ≠ URLCancel := by rw [hpath]; decide
    have hsh : r.path ≠ URLShuffle := by rw [hpath]; decide
    simp only [handleHTTPRequest, hm, hh, hb, hperm, hpath, hcs, hsh]
    simp [handleSend, hcreate, URLSend, URLCancel, URLShuffle]
  · intro p r req uid e hm hh hb heq hperm hpath hget
    subst heq
    have hcs : r.path ≠ URLCancel := by rw [hpath]; decide
    simp only [handleHTTPRequest, hm, hh, hb, hperm, hpath, hcs]
    simp [handleShuffle, hget, URLShuffle, URLCancel]

theorem claim_C6_witness :
    ("GET" : String) ≠ "POST"
    ∧ (handleHTTPRequest testPlugin
        { method := "GET", path := URLSend, userIdHeader := some "gif-user"
          body := none }).status = 405
    ∧ (handleHTTPRequest testPlugin
        { method := "POST", path := URLCancel, userIdHeader := some "gif-user"
          body := some testRequest }).status = 200 :=
  ⟨by decide,
   claim_C6.1 testPlugin
     { method := "GET", path := URLSend, userIdHeader := some "gif-user", body := none }
     (by decide),
   claim_C6.2.2.2.2.2.2.1 testPlugin
     { method := "POST", path := URLCancel, userIdHeader := some "gif-user"
       body := some testRequest } testRequest "gif-user" rfl rfl rfl rfl rfl rfl⟩

/-- Claim C8: a valid send transition deletes the ephemeral post of the
invoking user and the context's post id and creates a permanent post in the
original channel and thread whose message contains the stored GIF URL and
whose author is the invoking user, not the bot; when post creation fails the
user is notified of the creation error and the deletion has already happened
(it precedes the creation in the call list). -/
theorem claim_C8 :
    (∀ (p : PluginM) (req : integrationRequest),
      p.createPostResult = none →
      ∃ post, (handleSend p req).calls
          = [HostCall.deleteEphemeralPost req.userId req.postId, HostCall.createPost post]
        ∧ containsStr post.message req.gifURL
        ∧ post.userId = req.userId
        ∧ post.channelId = req.channelId
        ∧ post.rootId = req.rootId
        ∧ (req.userId ≠ p.botId → post.userId ≠ p.botId)
        ∧ (handleSend p req).status = 200)
    ∧ (∀ (p : PluginM) (req : integrationRequest) (err : String),
      p.createPostResult = some err →
      (handleSend p req).notifications = ["Unable to create the post: " ++ err]
      ∧ containsStr ("Unable to create the post: " ++ err) "create"
      ∧ (handleSend p req).calls.head?
          = some (HostCall.deleteEphemeralPost req.userId req.postId)) := by
  constructor
  · intro p req hcreate
    refine ⟨{ id := ""
              message := generateGifCaption p.displayMode req.keywords req.caption
                req.gifURL p.attributionMessage
              userId := req.userId, channelId := req.channelId, rootId := req.rootId
              context := none }, ?_, ?_, rfl, rfl, rfl, fun h => h, ?_⟩
    · simp [handleSend, hcreate]
    · exact generateGifCaption_contains_gifURL p.displayMode req.keywords req.caption
        req.gifURL p.attributionMessage
    · simp [handleSend, hcreate]
  · intro p req err hcreate
    refine ⟨?_, ?_, ?_⟩
    · simp [handleSend, hcreate]
    · exact containsStr_append_left err (by decide)
    · simp [handleSend, hcreate]

theorem claim_C8_witness :
    (testPlugin.createPostResult = none)
    ∧ ∃ post, (handleSend testPlugin testRequest).calls
        = [HostCall.deleteEphemeralPost "gif-user" "skfqsldjhfkljhf",
           HostCall.createPost post]
      ∧ containsStr post.message "https://gif.fr/gif/42"
      ∧ post.userId = "gif-user" :=
  ⟨rfl,
   match claim_C8.1 testPlugin testRequest rfl with
   | ⟨post, hcalls, hmsg, huser, _, _, _, _⟩ => ⟨post, hcalls, hmsg, huser⟩⟩

end MatterGif
